import Mathlib

set_option linter.unusedVariables false

/-!
Shallow embedding of the wdk-x402-evm adapter layer.

The repository contains three near-duplicate adapter classes in
src/src/wallet-account-evm-facilitator.js:

- WalletAccountEvmFacilitator      (object wrapper, boolean verifyTypedData)
- WalletAccountEvmX402Facilitator  (object wrapper, recovered-address verifyTypedData)
- FacilitatorEvmSignerAdapter      (subclass of WalletAccountEvm, guarded operations)

Each method is embedded as a pure Lean function.  Collaborators (the wallet
account, the network provider, and the ethers contract / typed-data codec)
are opaque in the source and are therefore passed as explicit function
parameters.  Fallible collaborator calls and the adapter guards of
FacilitatorEvmSignerAdapter are modelled with Except.  A small explicit heap
models JavaScript object identity for the frame claim about the caller
supplied types map.
-/

namespace X402Adapter

variable {V D T M P E R Abi Arg : Type}

/-- A JavaScript object with string keys and values of type V, modelled as an
association list.  Keys of a JS object are unique. -/
abbrev JsObject (V : Type) := List (String × V)

/-- Removal of the key k from a JS object.  This is the observable effect both
of rest destructuring without k and of copying followed by deleting k. -/
def jsObjWithout (k : String) (o : JsObject V) : JsObject V :=
  o.filter (fun p => p.1 ≠ k)

/-- Model of the JavaScript String.prototype.toLowerCase on the ASCII strings
used for hex addresses: lowercases every character. -/
def jsToLowerCase (s : String) : String :=
  ⟨s.data.map Char.toLower⟩

/-- A JavaScript exception value.  fromAdapter carries a message of an error
constructed by the adapter code itself; fromCollab is any failure raised by a
collaborator (wallet account, provider or codec) and rethrown unmodified. -/
inductive JsError (E : Type) where
  | fromAdapter : String → JsError E
  | fromCollab : E → JsError E
deriving DecidableEq

/-- The transaction request object handed to the wallet account.  toAddr
models the JS field named to (a reserved word in Lean); value is an Option
because one adapter variant omits the value field entirely. -/
structure SendTxRequest where
  toAddr : String
  value : Option Int
  data : String
deriving DecidableEq

/-- The wallet account result of sendTransaction: a hash field plus arbitrary
further fields (rest), of which the adapters use only hash. -/
structure SendTxResult (R : Type) where
  hash : String
  rest : R

/-- A mined transaction receipt as reported by the provider: the adapters read
only its numeric status field. -/
structure TxReceipt where
  status : Int

/-- The adapter result of waitForTransactionReceipt. -/
structure TransactionReceiptResult where
  status : String
deriving DecidableEq

/-- An explicit heap of JS objects, used to model object identity and
mutation for the frame claim: references are indices into the store. -/
structure Heap (V : Type) where
  objs : List (JsObject V)

/-- Dereference: reading an invalid reference yields the empty object. -/
def Heap.read (h : Heap V) (r : Nat) : JsObject V :=
  (h.objs.get? r).getD []

/-- Allocate a fresh object (object literal, spread copy or rest
destructuring result) and return its reference. -/
def Heap.alloc (h : Heap V) (o : JsObject V) : Heap V × Nat :=
  (⟨h.objs ++ [o]⟩, h.objs.length)

/-- Overwrite the object at an existing reference (in place mutation). -/
def Heap.write (h : Heap V) (r : Nat) (o : JsObject V) : Heap V :=
  ⟨h.objs.set r o⟩

/-- The JS delete operator on a property of the object at reference r. -/
def Heap.deleteKey (h : Heap V) (r : Nat) (k : String) : Heap V :=
  h.write r (jsObjWithout k (h.read r))

namespace WalletAccountEvmFacilitator

/-- Source: WalletAccountEvmFacilitator.getCode (lines 114-117).
provGetCode is the provider getCode bound call. -/
def getCode (provGetCode : String → String) (address : String) : Option String :=
  let code := provGetCode address
  if code = "0x" then none else some code

/-- Source: WalletAccountEvmFacilitator.readContract (lines 125-128).
dispatch models new Contract(address, abi, provider) followed by the dynamic
property call contract[functionName](...args); args defaults to the empty
list when omitted. -/
def readContract (dispatch : String → Abi → String → List Arg → R)
    (address : String) (abi : Abi) (functionName : String)
    (args? : Option (List Arg)) : R :=
  dispatch address abi functionName (args?.getD [])

/-- Source: WalletAccountEvmFacilitator.verifyTypedData (lines 136-140).
rec is the ethers verifyTypedData recovery routine.  The rest destructuring
on line 137 removes the entry named by primaryType from types. -/
def verifyTypedData (rec : D → JsObject T → M → String → String)
    (address : String) (domain : D) (types : JsObject T) (primaryType : String)
    (message : M) (signature : String) : Bool :=
  let typesWithoutPrimary := jsObjWithout primaryType types
  let recovered := rec domain typesWithoutPrimary message signature
  jsToLowerCase recovered == jsToLowerCase address

/-- Heap level model of the same method, line 137: rest destructuring
allocates a fresh object holding every entry of types except the one named by
primaryType; the caller object is never written. -/
def verifyTypedDataHeap (rec : D → JsObject T → M → String → String)
    (h : Heap T) (address : String) (domain : D) (typesRef : Nat)
    (primaryType : String) (message : M) (signature : String) : Heap T × Bool :=
  let alloc1 := h.alloc (jsObjWithout primaryType (h.read typesRef))
  let recovered := rec domain (alloc1.1.read alloc1.2) message signature
  (alloc1.1, jsToLowerCase recovered == jsToLowerCase address)

/-- Source: WalletAccountEvmFacilitator.sendTransaction (lines 160-163).
send is the adaptee sendTransaction primitive; the request literal carries
value: 0 explicitly, and only the hash field of the result is returned. -/
def sendTransaction (send : SendTxRequest → SendTxResult R)
    (toAddr data : String) : String :=
  (send { toAddr := toAddr, value := some 0, data := data }).hash

/-- Source: WalletAccountEvmFacilitator.waitForTransactionReceipt
(lines 171-174).  waitForTransaction is the provider call. -/
def waitForTransactionReceipt (waitForTransaction : String → TxReceipt)
    (hash : String) : TransactionReceiptResult :=
  let receipt := waitForTransaction hash
  { status := if receipt.status = 1 then "success" else "reverted" }

end WalletAccountEvmFacilitator

namespace WalletAccountEvmX402Facilitator

/-- Source: WalletAccountEvmX402Facilitator.getCode (lines 265-268). -/
def getCode (provGetCode : String → String) (address : String) : Option String :=
  let code := provGetCode address
  if code = "0x" then none else some code

/-- Source: WalletAccountEvmX402Facilitator.readContract (lines 276-279). -/
def readContract (dispatch : String → Abi → String → List Arg → R)
    (address : String) (abi : Abi) (functionName : String)
    (args? : Option (List Arg)) : R :=
  dispatch address abi functionName (args?.getD [])

/-- Source: WalletAccountEvmX402Facilitator.verifyTypedData (lines 287-290).
The method receives the full argument object but destructures only domain,
types, message and signature; it forwards types untouched to the ethers
recovery routine rec and returns the recovered address string verbatim. -/
def verifyTypedData (rec : D → JsObject T → M → String → String)
    (address : String) (domain : D) (types : JsObject T) (primaryType : String)
    (message : M) (signature : String) : String :=
  rec domain types message signature

/-- Source: WalletAccountEvmX402Facilitator.sendTransaction (lines 310-313). -/
def sendTransaction (send : SendTxRequest → SendTxResult R)
    (toAddr data : String) : String :=
  (send { toAddr := toAddr, value := some 0, data := data }).hash

/-- Source: WalletAccountEvmX402Facilitator.waitForTransactionReceipt
(lines 321-324). -/
def waitForTransactionReceipt (waitForTransaction : String → TxReceipt)
    (hash : String) : TransactionReceiptResult :=
  let receipt := waitForTransaction hash
  { status := if receipt.status = 1 then "success" else "reverted" }

end WalletAccountEvmX402Facilitator

namespace FacilitatorEvmSignerAdapter

/-- Source: FacilitatorEvmSignerAdapter.readContract (lines 444-453).
The method first guards on this._provider being set, throwing a locally
constructed Error otherwise; with a provider p it dispatches through the
codec, and any codec failure propagates unmodified. -/
def readContract (provider? : Option P)
    (dispatch : P → String → Abi → String → List Arg → Except (JsError E) R)
    (address : String) (abi : Abi) (functionName : String)
    (args? : Option (List Arg)) : Except (JsError E) R :=
  match provider? with
  | none => Except.error
      (JsError.fromAdapter "The wallet must be connected to a provider to read contracts.")
  | some p => dispatch p address abi functionName (args?.getD [])

/-- Source: FacilitatorEvmSignerAdapter.verifyTypedData (lines 461-475).
No provider guard.  Lines 464-465 build a spread copy of types and delete its
EIP712Domain property; the recovery routine receives that copy and the result
is the case insensitive comparison with the claimed address. -/
def verifyTypedData (rec : D → JsObject T → M → String → String)
    (address : String) (domain : D) (types : JsObject T)
    (message : M) (signature : String) : Bool :=
  let typesWithoutEIP712Domain := jsObjWithout "EIP712Domain" types
  let recoveredAddress := rec domain typesWithoutEIP712Domain message signature
  jsToLowerCase recoveredAddress == jsToLowerCase address

/-- Heap level model of lines 464-465: the spread copy allocates a fresh
object with the same entries, and the delete operator mutates only that
copy, never the caller supplied object. -/
def verifyTypedDataHeap (rec : D → JsObject T → M → String → String)
    (h : Heap T) (address : String) (domain : D) (typesRef : Nat)
    (message : M) (signature : String) : Heap T × Bool :=
  let alloc1 := h.alloc (h.read typesRef)
  let h2 := alloc1.1.deleteKey alloc1.2 "EIP712Domain"
  let recoveredAddress := rec domain (h2.read alloc1.2) message signature
  (h2, jsToLowerCase recoveredAddress == jsToLowerCase address)

/-- Source: FacilitatorEvmSignerAdapter.writeContract (lines 483-493).
Guards on this._account.provider; dispatchW models new Contract(address,
abi, this._account), a handle bound to the account signing context, followed
by the dynamic property call contract[functionName](...fnArgs).  Unlike
readContract the argument list is not defaulted.  Only the hash field of the
resulting transaction is returned, and any dispatch failure propagates
unmodified. -/
def writeContract (provider? : Option P)
    (dispatchW : String → Abi → String → List Arg → Except (JsError E) (SendTxResult R))
    (address : String) (abi : Abi) (functionName : String)
    (args : List Arg) : Except (JsError E) String :=
  match provider? with
  | none => Except.error
      (JsError.fromAdapter "The wallet must be connected to a provider to write contracts.")
  | some _ => (dispatchW address abi functionName args).map SendTxResult.hash

/-- Source: FacilitatorEvmSignerAdapter.sendTransaction (lines 501-510).
Guards on this._account.provider; the request literal forwarded to the
account carries only to and data, with no value field at all. -/
def sendTransaction (provider? : Option P)
    (accountSend : SendTxRequest → Except (JsError E) (SendTxResult R))
    (toAddr data : String) : Except (JsError E) String :=
  match provider? with
  | none => Except.error
      (JsError.fromAdapter "The wallet must be connected to a provider to send transactions.")
  | some _ => (accountSend { toAddr := toAddr, value := none, data := data }).map SendTxResult.hash

/-- Source: FacilitatorEvmSignerAdapter.waitForTransactionReceipt
(lines 518-527).  Guards on this._provider, then maps the numeric receipt
status through the success / reverted dichotomy. -/
def waitForTransactionReceipt (provider? : Option P)
    (waitForTransaction : P → String → Except (JsError E) TxReceipt)
    (hash : String) : Except (JsError E) TransactionReceiptResult :=
  match provider? with
  | none => Except.error
      (JsError.fromAdapter "The wallet must be connected to a provider to wait for transaction receipts.")
  | some p => (waitForTransaction p hash).map
      (fun (receipt : TxReceipt) =>
        ({ status := if receipt.status = 1 then "success" else "reverted" } :
          TransactionReceiptResult))

/-- Source: FacilitatorEvmSignerAdapter.getCode (lines 535-546).
Guards on this._provider, then returns undefined for the empty code sentinel
and the raw code string otherwise. -/
def getCode (provider? : Option P)
    (provGetCode : P → String → Except (JsError E) String)
    (address : String) : Except (JsError E) (Option String) :=
  match provider? with
  | none => Except.error
      (JsError.fromAdapter "The wallet must be connected to a provider to get contract code.")
  | some p => (provGetCode p address).map
      (fun code => if code = "0x" then none else some code)

end FacilitatorEvmSignerAdapter

/-- A probe recovery routine that reports the keys of the types map it was
invoked with, used to observe which entries reach the codec. -/
def recKeys : Unit → JsObject Unit → Unit → String → String :=
  fun _ types _ _ => String.intercalate "," (types.map Prod.fst)

/-- A probe wallet account send primitive whose hash reveals the value field
of the request it was handed. -/
def probeSend0 : SendTxRequest → Except (JsError Unit) (SendTxResult Unit) :=
  fun req => Except.ok
    { hash := match req.value with
        | some v => toString v
        | none => "value-absent",
      rest := () }

end X402Adapter

namespace X402Adapter

variable {V D T M P E R Abi Arg : Type}

/-- Reading an existing reference is unchanged by an allocation. -/
theorem heap_read_alloc_of_lt (h : Heap V) (o : JsObject V) (r : Nat)
    (hr : r < h.objs.length) : (h.alloc o).1.read r = h.read r := by
  simp [Heap.alloc, Heap.read, List.getElem?_append_left hr]

/-- Reading a reference other than the written one is unchanged. -/
theorem heap_read_write_ne (h : Heap V) (r s : Nat) (o : JsObject V)
    (hne : r ≠ s) : (h.write r o).read s = h.read s := by
  simp [Heap.write, Heap.read, List.getElem?_set_ne hne]

/-- Allocating a fresh object and deleting a key on it leaves every existing
reference unchanged. -/
theorem heap_read_alloc_delete (h : Heap V) (o : JsObject V) (k : String) (r : Nat)
    (hr : r < h.objs.length) :
    ((h.alloc o).1.deleteKey (h.alloc o).2 k).read r = h.read r := by
  have hne : (h.alloc o).2 ≠ r := by
    simp only [Heap.alloc]
    exact (Nat.ne_of_lt hr).symm
  rw [Heap.deleteKey, heap_read_write_ne _ _ _ _ hne, heap_read_alloc_of_lt h o r hr]

end X402Adapter

namespace X402Adapter

/-- Claim C1 (evaluation at the failing input): the spec requires the
recovery routine to be invoked with the reserved EIP712Domain entry removed
and every other entry, including the primaryType entry, retained.
WalletAccountEvmFacilitator.verifyTypedData (line 137) instead removes the
entry named by primaryType and keeps EIP712Domain: at the input below the
probe recovery routine recKeys observes exactly the key EIP712Domain (first
conjunct) and not the key Message (second conjunct), while the sibling
FacilitatorEvmSignerAdapter.verifyTypedData observes exactly Message as the
claim demands (third conjunct). -/
theorem claim_C1_eval :
    WalletAccountEvmFacilitator.verifyTypedData recKeys "eip712domain" ()
      [("EIP712Domain", ()), ("Message", ())] "Message" () "0xsig" = true
  ∧ WalletAccountEvmFacilitator.verifyTypedData recKeys "message" ()
      [("EIP712Domain", ()), ("Message", ())] "Message" () "0xsig" = false
  ∧ FacilitatorEvmSignerAdapter.verifyTypedData recKeys "message" ()
      [("EIP712Domain", ()), ("Message", ())] () "0xsig" = true := by
  refine ⟨rfl, rfl, rfl⟩

/-- Claim C2 counterexample: FacilitatorEvmSignerAdapter.sendTransaction
(line 507) forwards a request with no value field at all, not value 0.  The
probe account send primitive returns a hash revealing the value field it was
handed: the adapter call yields the absent marker while the request the claim
prescribes would yield the string 0. -/
theorem claim_C2_counterexample :
    FacilitatorEvmSignerAdapter.sendTransaction (some ()) probeSend0 "0xto" "0x1234"
      = Except.ok "value-absent"
  ∧ (probeSend0 { toAddr := "0xto", value := some 0, data := "0x1234" }).map
      SendTxResult.hash = Except.ok "0"
  ∧ ("value-absent" : String) ≠ "0" :=
  ⟨rfl, rfl, by decide⟩

/-- Claim C2 as amended: the two object wrapper adapters forward value = 0
explicitly and return the hash field of the account result;
FacilitatorEvmSignerAdapter forwards only to and data, with the value field
absent, and likewise returns only the hash. -/
theorem claim_C2_amended : ∀ (R P E : Type) (p : P)
    (send : SendTxRequest → SendTxResult R)
    (sendE : SendTxRequest → Except (JsError E) (SendTxResult R))
    (toAddr data : String),
    (WalletAccountEvmFacilitator.sendTransaction send toAddr data
       = (send { toAddr := toAddr, value := some 0, data := data }).hash)
  ∧ (WalletAccountEvmX402Facilitator.sendTransaction send toAddr data
       = (send { toAddr := toAddr, value := some 0, data := data }).hash)
  ∧ (FacilitatorEvmSignerAdapter.sendTransaction (some p) sendE toAddr data
       = (sendE { toAddr := toAddr, value := none, data := data }).map SendTxResult.hash) := by
  intro R P E p send sendE toAddr data
  exact ⟨rfl, rfl, rfl⟩

/-- Claim C3 counterexample: FacilitatorEvmSignerAdapter.readContract with no
connected provider fails with an error the adapter itself constructs, which
is not a collaborator failure. -/
theorem claim_C3_counterexample :
    FacilitatorEvmSignerAdapter.readContract (none : Option Unit)
      (fun _ _ _ _ _ => (Except.ok 0 : Except (JsError Unit) Nat)) "0xabc" ()
      "balanceOf" (none : Option (List Unit))
      = Except.error (JsError.fromAdapter
          "The wallet must be connected to a provider to read contracts.")
  ∧ (JsError.fromAdapter
        "The wallet must be connected to a provider to read contracts." : JsError Unit)
      ≠ JsError.fromCollab () :=
  ⟨rfl, by decide⟩

/-- Claim C3 as amended: the only failures FacilitatorEvmSignerAdapter raises
itself are its provider connection guard errors (first five conjuncts, one
per guarded operation: readContract, writeContract, sendTransaction,
waitForTransactionReceipt and getCode); with a provider connected, a failure
of the collaborator is returned to the caller unmodified (last five
conjuncts). -/
theorem claim_C3_amended : ∀ (P Abi Arg R E : Type) (p : P)
    (dispatch : P → String → Abi → String → List Arg → Except (JsError E) R)
    (dispatchW : String → Abi → String → List Arg → Except (JsError E) (SendTxResult R))
    (accountSend : SendTxRequest → Except (JsError E) (SendTxResult R))
    (waitFT : P → String → Except (JsError E) TxReceipt)
    (provGetCode : P → String → Except (JsError E) String)
    (address : String) (abi : Abi) (functionName : String) (args? : Option (List Arg))
    (fnArgs : List Arg) (toAddr data hash : String) (e : JsError E),
    (FacilitatorEvmSignerAdapter.readContract (none : Option P) dispatch address abi
        functionName args?
       = Except.error (JsError.fromAdapter
           "The wallet must be connected to a provider to read contracts."))
  ∧ (FacilitatorEvmSignerAdapter.writeContract (none : Option P) dispatchW address abi
        functionName fnArgs
       = Except.error (JsError.fromAdapter
           "The wallet must be connected to a provider to write contracts."))
  ∧ (FacilitatorEvmSignerAdapter.sendTransaction (none : Option P) accountSend toAddr data
       = Except.error (JsError.fromAdapter
           "The wallet must be connected to a provider to send transactions."))
  ∧ (FacilitatorEvmSignerAdapter.waitForTransactionReceipt (none : Option P) waitFT hash
       = Except.error (JsError.fromAdapter
           "The wallet must be connected to a provider to wait for transaction receipts."))
  ∧ (FacilitatorEvmSignerAdapter.getCode (none : Option P) provGetCode address
       = Except.error (JsError.fromAdapter
           "The wallet must be connected to a provider to get contract code."))
  ∧ (dispatch p address abi functionName (args?.getD []) = Except.error e →
       FacilitatorEvmSignerAdapter.readContract (some p) dispatch address abi
         functionName args? = Except.error e)
  ∧ (dispatchW address abi functionName fnArgs = Except.error e →
       FacilitatorEvmSignerAdapter.writeContract (some p) dispatchW address abi
         functionName fnArgs = Except.error e)
  ∧ (accountSend { toAddr := toAddr, value := none, data := data } = Except.error e →
       FacilitatorEvmSignerAdapter.sendTransaction (some p) accountSend toAddr data
         = Except.error e)
  ∧ (waitFT p hash = Except.error e →
       FacilitatorEvmSignerAdapter.waitForTransactionReceipt (some p) waitFT hash
         = Except.error e)
  ∧ (provGetCode p address = Except.error e →
       FacilitatorEvmSignerAdapter.getCode (some p) provGetCode address
         = Except.error e) := by
  intro P Abi Arg R E p dispatch dispatchW accountSend waitFT provGetCode address abi
    functionName args? fnArgs toAddr data hash e
  refine ⟨rfl, rfl, rfl, rfl, rfl, ?_, ?_, ?_, ?_, ?_⟩
  · intro hd
    simpa [FacilitatorEvmSignerAdapter.readContract] using hd
  · intro hwc
    simp [FacilitatorEvmSignerAdapter.writeContract, hwc, Except.map]
  · intro hs
    simp [FacilitatorEvmSignerAdapter.sendTransaction, hs, Except.map]
  · intro hw
    simp [FacilitatorEvmSignerAdapter.waitForTransactionReceipt, hw, Except.map]
  · intro hg
    simp [FacilitatorEvmSignerAdapter.getCode, hg, Except.map]

/-- Witness for claim C3 as amended: a concrete codec failure propagates
unmodified through readContract and through writeContract with a connected
provider. -/
theorem claim_C3_amended_witness :
    FacilitatorEvmSignerAdapter.readContract (some ())
      (fun _ _ _ _ _ => (Except.error (JsError.fromCollab 7) : Except (JsError Nat) Nat))
      "0xabc" () "f" (none : Option (List Unit))
      = Except.error (JsError.fromCollab 7)
  ∧ FacilitatorEvmSignerAdapter.writeContract (some ())
      (fun _ _ _ _ =>
        (Except.error (JsError.fromCollab 7) : Except (JsError Nat) (SendTxResult Nat)))
      "0xabc" () "f" ([] : List Unit)
      = Except.error (JsError.fromCollab 7) :=
  ⟨(claim_C3_amended Unit Unit Unit Nat Nat ()
      (fun _ _ _ _ _ => Except.error (JsError.fromCollab 7))
      (fun _ _ _ _ => Except.error (JsError.fromCollab 7))
      (fun _ => Except.ok { hash := "h", rest := 0 })
      (fun _ _ => Except.ok { status := 1 })
      (fun _ _ => Except.ok "0x")
      "0xabc" () "f" none [] "t" "d" "h" (JsError.fromCollab 7)).2.2.2.2.2.1 rfl,
   (claim_C3_amended Unit Unit Unit Nat Nat ()
      (fun _ _ _ _ _ => Except.error (JsError.fromCollab 7))
      (fun _ _ _ _ => Except.error (JsError.fromCollab 7))
      (fun _ => Except.ok { hash := "h", rest := 0 })
      (fun _ _ => Except.ok { status := 1 })
      (fun _ _ => Except.ok "0x")
      "0xabc" () "f" none [] "t" "d" "h" (JsError.fromCollab 7)).2.2.2.2.2.2.1 rfl⟩

/-- Claim C4: in all three adapters, a receipt with numeric status 1 maps to
the success outcome and any other status, 0 included, maps to reverted. -/
theorem claim_C4 : ∀ (P E : Type) (p : P) (waitFT : String → TxReceipt)
    (waitE : P → String → Except (JsError E) TxReceipt) (hash : String) (r : TxReceipt),
    ((waitFT hash).status = 1 →
       WalletAccountEvmFacilitator.waitForTransactionReceipt waitFT hash
         = { status := "success" })
  ∧ ((waitFT hash).status ≠ 1 →
       WalletAccountEvmFacilitator.waitForTransactionReceipt waitFT hash
         = { status := "reverted" })
  ∧ ((waitFT hash).status = 1 →
       WalletAccountEvmX402Facilitator.waitForTransactionReceipt waitFT hash
         = { status := "success" })
  ∧ ((waitFT hash).status ≠ 1 →
       WalletAccountEvmX402Facilitator.waitForTransactionReceipt waitFT hash
         = { status := "reverted" })
  ∧ (waitE p hash = Except.ok r → r.status = 1 →
       FacilitatorEvmSignerAdapter.waitForTransactionReceipt (some p) waitE hash
         = Except.ok { status := "success" })
  ∧ (waitE p hash = Except.ok r → r.status ≠ 1 →
       FacilitatorEvmSignerAdapter.waitForTransactionReceipt (some p) waitE hash
         = Except.ok { status := "reverted" }) := by
  intro P E p waitFT waitE hash r
  refine ⟨?_, ?_, ?_, ?_, ?_, ?_⟩
  · intro h1
    simp [WalletAccountEvmFacilitator.waitForTransactionReceipt, h1]
  · intro h1
    simp [WalletAccountEvmFacilitator.waitForTransactionReceipt, h1]
  · intro h1
    simp [WalletAccountEvmX402Facilitator.waitForTransactionReceipt, h1]
  · intro h1
    simp [WalletAccountEvmX402Facilitator.waitForTransactionReceipt, h1]
  · intro hok h1
    simp [FacilitatorEvmSignerAdapter.waitForTransactionReceipt, hok, Except.map, h1]
  · intro hok h1
    simp [FacilitatorEvmSignerAdapter.waitForTransactionReceipt, hok, Except.map, h1]

/-- Witness for claim C4 at receipt statuses 1 and 0. -/
theorem claim_C4_witness :
    ((fun (_ : String) => ({ status := 1 } : TxReceipt)) "h").status = 1
  ∧ WalletAccountEvmFacilitator.waitForTransactionReceipt (fun _ => { status := 1 }) "h"
      = { status := "success" }
  ∧ WalletAccountEvmFacilitator.waitForTransactionReceipt (fun _ => { status := 0 }) "h"
      = { status := "reverted" }
  ∧ FacilitatorEvmSignerAdapter.waitForTransactionReceipt (some ())
      (fun _ _ => (Except.ok { status := 1 } : Except (JsError Unit) TxReceipt)) "h"
      = Except.ok { status := "success" } :=
  ⟨rfl,
   (claim_C4 Unit Unit () (fun _ => { status := 1 })
     (fun _ _ => Except.ok { status := 1 }) "h" { status := 1 }).1 rfl,
   (claim_C4 Unit Unit () (fun _ => { status := 0 })
     (fun _ _ => Except.ok { status := 0 }) "h" { status := 0 }).2.1 (by decide),
   (claim_C4 Unit Unit () (fun _ => { status := 1 })
     (fun _ _ => Except.ok { status := 1 }) "h" { status := 1 }).2.2.2.2.1 rfl rfl⟩

end X402Adapter

namespace X402Adapter

/-- Claim C5: in all three adapters, getCode yields the absent value exactly
when the provider response is the two character sentinel 0x, and any other
response string is returned verbatim. -/
theorem claim_C5 : ∀ (P E : Type) (p : P) (c address : String)
    (getCodeE : P → String → Except (JsError E) String),
    (WalletAccountEvmFacilitator.getCode (fun _ => c) address = none ↔ c = "0x")
  ∧ (c ≠ "0x" → WalletAccountEvmFacilitator.getCode (fun _ => c) address = some c)
  ∧ (WalletAccountEvmX402Facilitator.getCode (fun _ => c) address = none ↔ c = "0x")
  ∧ (c ≠ "0x" → WalletAccountEvmX402Facilitator.getCode (fun _ => c) address = some c)
  ∧ (getCodeE p address = Except.ok c →
      ((FacilitatorEvmSignerAdapter.getCode (some p) getCodeE address
          = Except.ok none ↔ c = "0x")
       ∧ (c ≠ "0x" → FacilitatorEvmSignerAdapter.getCode (some p) getCodeE address
          = Except.ok (some c)))) := by
  intro P E p c address getCodeE
  refine ⟨?_, ?_, ?_, ?_, ?_⟩
  · by_cases hc : c = "0x" <;> simp [WalletAccountEvmFacilitator.getCode, hc]
  · intro hc
    simp [WalletAccountEvmFacilitator.getCode, hc]
  · by_cases hc : c = "0x" <;> simp [WalletAccountEvmX402Facilitator.getCode, hc]
  · intro hc
    simp [WalletAccountEvmX402Facilitator.getCode, hc]
  · intro hok
    constructor
    · by_cases hc : c = "0x" <;>
        simp [FacilitatorEvmSignerAdapter.getCode, hok, Except.map, hc]
    · intro hc
      simp [FacilitatorEvmSignerAdapter.getCode, hok, Except.map, hc]

/-- Witness for claim C5: the uppercase response 0X is not the sentinel and
comes back verbatim with its case preserved, and the sentinel itself maps to
the absent value through the guarded adapter. -/
theorem claim_C5_witness :
    ("0X" : String) ≠ "0x"
  ∧ WalletAccountEvmFacilitator.getCode (fun _ => "0X") "0xaddr" = some "0X"
  ∧ FacilitatorEvmSignerAdapter.getCode (some ())
      (fun _ _ => (Except.ok "0x" : Except (JsError Unit) String)) "0xaddr"
      = Except.ok none :=
  ⟨by decide,
   (claim_C5 Unit Unit () "0X" "0xaddr" (fun _ _ => Except.ok "0X")).2.1 (by decide),
   ((claim_C5 Unit Unit () "0x" "0xaddr" (fun _ _ => Except.ok "0x")).2.2.2.2
      rfl).1.mpr rfl⟩

/-- Claim C6: the boolean verifyTypedData variants return true exactly when
the recovered and claimed addresses agree after lowercasing, and the result
is unchanged when either address is replaced by a string with the same
lowercasing. -/
theorem claim_C6 : ∀ (D T M : Type) (recovered recovered2 claimed claimed2 : String)
    (domain : D) (types : JsObject T) (primaryType : String) (message : M)
    (signature : String),
    (WalletAccountEvmFacilitator.verifyTypedData (fun _ _ _ _ => recovered) claimed
        domain types primaryType message signature = true
       ↔ jsToLowerCase recovered = jsToLowerCase claimed)
  ∧ (FacilitatorEvmSignerAdapter.verifyTypedData (fun _ _ _ _ => recovered) claimed
        domain types message signature = true
       ↔ jsToLowerCase recovered = jsToLowerCase claimed)
  ∧ (jsToLowerCase claimed = jsToLowerCase claimed2 →
       (WalletAccountEvmFacilitator.verifyTypedData (fun _ _ _ _ => recovered) claimed
           domain types primaryType message signature
          = WalletAccountEvmFacilitator.verifyTypedData (fun _ _ _ _ => recovered)
              claimed2 domain types primaryType message signature
        ∧ FacilitatorEvmSignerAdapter.verifyTypedData (fun _ _ _ _ => recovered) claimed
           domain types message signature
          = FacilitatorEvmSignerAdapter.verifyTypedData (fun _ _ _ _ => recovered)
              claimed2 domain types message signature))
  ∧ (jsToLowerCase recovered = jsToLowerCase recovered2 →
       (WalletAccountEvmFacilitator.verifyTypedData (fun _ _ _ _ => recovered) claimed
           domain types primaryType message signature
          = WalletAccountEvmFacilitator.verifyTypedData (fun _ _ _ _ => recovered2)
              claimed domain types primaryType message signature
        ∧ FacilitatorEvmSignerAdapter.verifyTypedData (fun _ _ _ _ => recovered) claimed
           domain types message signature
          = FacilitatorEvmSignerAdapter.verifyTypedData (fun _ _ _ _ => recovered2)
              claimed domain types message signature)) := by
  intro D T M recovered recovered2 claimed claimed2 domain types primaryType message signature
  refine ⟨?_, ?_, ?_, ?_⟩
  · simp [WalletAccountEvmFacilitator.verifyTypedData]
  · simp [FacilitatorEvmSignerAdapter.verifyTypedData]
  · intro hcase
    constructor
    · simp only [WalletAccountEvmFacilitator.verifyTypedData]
      rw [hcase]
    · simp only [FacilitatorEvmSignerAdapter.verifyTypedData]
      rw [hcase]
  · intro hcase
    constructor
    · simp only [WalletAccountEvmFacilitator.verifyTypedData]
      rw [hcase]
    · simp only [FacilitatorEvmSignerAdapter.verifyTypedData]
      rw [hcase]

/-- Witness for claim C6: two claimed addresses differing only in letter case
give the same result, and a lowercase recovered address verifies against an
uppercase claimed address. -/
theorem claim_C6_witness :
    jsToLowerCase "0xAbC" = jsToLowerCase "0xaBc"
  ∧ WalletAccountEvmFacilitator.verifyTypedData (fun _ _ _ _ => "0xABC") "0xAbC" ()
      ([] : JsObject Unit) "T" () "0xsig"
      = WalletAccountEvmFacilitator.verifyTypedData (fun _ _ _ _ => "0xABC") "0xaBc" ()
          ([] : JsObject Unit) "T" () "0xsig"
  ∧ FacilitatorEvmSignerAdapter.verifyTypedData (fun _ _ _ _ => "0xabc") "0xABC" ()
      ([] : JsObject Unit) () "0xsig" = true :=
  ⟨by decide,
   ((claim_C6 Unit Unit Unit "0xABC" "x" "0xAbC" "0xaBc" () [] "T" () "0xsig").2.2.1
      (by decide)).1,
   (claim_C6 Unit Unit Unit "0xabc" "x" "0xABC" "y" () [] "T" () "0xsig").2.1.mpr
      (by decide)⟩

/-- Claim C7: the recovered address variant returns the codec output string
verbatim, for every codec and every argument object; in particular a
lowercase recovered address is returned unequal to a mixed case claimed
address. -/
theorem claim_C7 : ∀ (D T M : Type) (rec : D → JsObject T → M → String → String)
    (address : String) (domain : D) (types : JsObject T) (primaryType : String)
    (message : M) (signature : String),
    (WalletAccountEvmX402Facilitator.verifyTypedData rec address domain types
        primaryType message signature
       = rec domain types message signature)
  ∧ (WalletAccountEvmX402Facilitator.verifyTypedData
        (fun _ _ _ _ => "0x2dd68bc0e919931faa1e4233ec4a9c2b7e1e784c")
        "0x2Dd68bc0e919931fAA1e4233EC4a9c2B7e1e784C" domain types primaryType
        message signature
       ≠ "0x2Dd68bc0e919931fAA1e4233EC4a9c2B7e1e784C") := by
  intro D T M rec address domain types primaryType message signature
  refine ⟨rfl, ?_⟩
  simp only [WalletAccountEvmX402Facilitator.verifyTypedData]
  decide

/-- Claim C8: readContract dispatches the named function with the given
ordered argument list, defaulting it to the empty list when omitted, and
returns the codec result unchanged, in all three adapters. -/
theorem claim_C8 : ∀ (P E Abi Arg R : Type) (p : P)
    (dispatch : String → Abi → String → List Arg → R)
    (dispatchE : P → String → Abi → String → List Arg → Except (JsError E) R)
    (address : String) (abi : Abi) (functionName : String) (args : List Arg),
    (WalletAccountEvmFacilitator.readContract dispatch address abi functionName none
       = dispatch address abi functionName [])
  ∧ (WalletAccountEvmFacilitator.readContract dispatch address abi functionName (some args)
       = dispatch address abi functionName args)
  ∧ (WalletAccountEvmX402Facilitator.readContract dispatch address abi functionName none
       = dispatch address abi functionName [])
  ∧ (WalletAccountEvmX402Facilitator.readContract dispatch address abi functionName (some args)
       = dispatch address abi functionName args)
  ∧ (FacilitatorEvmSignerAdapter.readContract (some p) dispatchE address abi functionName none
       = dispatchE p address abi functionName [])
  ∧ (FacilitatorEvmSignerAdapter.readContract (some p) dispatchE address abi functionName (some args)
       = dispatchE p address abi functionName args) := by
  intro P E Abi Arg R p dispatch dispatchE address abi functionName args
  exact ⟨rfl, rfl, rfl, rfl, rfl, rfl⟩

/-- Claim C9: both stripping implementations build a separate map, so after
verifyTypedData the caller supplied types object is unchanged on the heap:
rest destructuring only allocates, and the spread copy plus delete mutates
only the fresh copy. -/
theorem claim_C9 : ∀ (D T M : Type) (rec : D → JsObject T → M → String → String)
    (h : Heap T) (address : String) (domain : D) (typesRef : Nat)
    (primaryType : String) (message : M) (signature : String),
    typesRef < h.objs.length →
    ((WalletAccountEvmFacilitator.verifyTypedDataHeap rec h address domain typesRef
        primaryType message signature).1.read typesRef = h.read typesRef)
  ∧ ((FacilitatorEvmSignerAdapter.verifyTypedDataHeap rec h address domain typesRef
        message signature).1.read typesRef = h.read typesRef) := by
  intro D T M rec h address domain typesRef primaryType message signature hlt
  exact ⟨heap_read_alloc_of_lt h _ typesRef hlt,
         heap_read_alloc_delete h _ "EIP712Domain" typesRef hlt⟩

/-- Witness for claim C9 on a one object heap holding an EIP712Domain entry
and a message type entry. -/
theorem claim_C9_witness :
    (0 : Nat) < (Heap.mk [[("EIP712Domain", 0), ("Message", 1)]] : Heap Nat).objs.length
  ∧ ((FacilitatorEvmSignerAdapter.verifyTypedDataHeap (fun _ _ _ _ => "0xa")
        (Heap.mk [[("EIP712Domain", 0), ("Message", 1)]]) "0xa" 0 0 0 "0xsig").1.read 0
      = (Heap.mk [[("EIP712Domain", 0), ("Message", 1)]] : Heap Nat).read 0) :=
  ⟨by decide,
   (claim_C9 Nat Nat Nat (fun _ _ _ _ => "0xa")
     (Heap.mk [[("EIP712Domain", 0), ("Message", 1)]]) "0xa" 0 0 "Message" 0 "0xsig"
     (by decide)).2⟩

/-- Claim C10: the recovered address variant depends only on domain, types,
message and signature: any two calls agreeing on those four give identical
results whatever the claimed address and primaryType are. -/
theorem claim_C10 : ∀ (D T M : Type) (rec : D → JsObject T → M → String → String)
    (address1 address2 primaryType1 primaryType2 : String)
    (domain : D) (types : JsObject T) (message : M) (signature : String),
    WalletAccountEvmX402Facilitator.verifyTypedData rec address1 domain types
        primaryType1 message signature
      = WalletAccountEvmX402Facilitator.verifyTypedData rec address2 domain types
          primaryType2 message signature := by
  intro D T M rec address1 address2 primaryType1 primaryType2 domain types message signature
  rfl

end X402Adapter
